import Mathlib

/-!
Shallow embedding of the ARGO float-data ingestion and query code of this
repository (`src/backend/src/index.js`, the in-memory Express variant, and
`src/unnamed/part_001`, the Prisma/PostgreSQL `ArgoCsvProcessor` variant).

JavaScript scalars appearing in parsed CSV rows are modelled by `JSVal`
(null, undefined, number, string); numbers are modelled as rationals — the
source never exercises float rounding in the properties considered, and
`NaN` arises only through coercion, modelled by `Option ℚ` (`none` = NaN).
Dates are modelled as millisecond timestamps since the Unix epoch
(`Option ℚ`, `none` = JavaScript Invalid Date).
-/

/-- A JavaScript scalar value as produced by Papa.parse with dynamicTyping. -/
inductive JSVal where
  | null
  | undefined
  | num (q : ℚ)
  | str (s : String)
deriving DecidableEq, Repr

/-- JavaScript truthiness for the scalar values we model
(`0`, `""`, `null`, `undefined` are falsy). -/
def JSVal.truthy : JSVal → Bool
  | .null => false
  | .undefined => false
  | .num q => q != 0
  | .str s => s != ""

/-- `a || b` in JavaScript: the first operand when truthy, otherwise the second. -/
def jsOr (a b : JSVal) : JSVal := if a.truthy then a else b

/-- Rational multiplication, written so the kernel can compute it (the
library's `Rat.mul` is irreducible); proved equal to `*` in `qmul_eq`. -/
def qmul (a b : ℚ) : ℚ := mkRat (a.num * b.num) (a.den * b.den)

/-- Rational addition, written so the kernel can compute it; proved equal to
`+` in `qadd_eq`. -/
def qadd (a b : ℚ) : ℚ := mkRat (a.num * b.den + b.num * a.den) (a.den * b.den)

/-- Digits-only parser: `some n` when the (nonempty) list is all decimal digits. -/
def parseNatDigits (cs : List Char) : Option Nat :=
  if cs.isEmpty then none
  else cs.foldl
    (fun acc c =>
      match acc with
      | none => none
      | some n => if c.isDigit then some (n * 10 + (c.toNat - 48)) else none)
    (some 0)

/-- `Number(s)` for a string `s`: the empty (trimmed) string coerces to `0`;
otherwise an optional sign, integer digits and an optional fraction are
accepted; anything else is NaN (`none`).  (Hex/exponent forms of JavaScript
never occur in this code's inputs and are not modelled.) -/
def strToNumber (s : String) : Option ℚ :=
  let t := s.trim
  if t = "" then some 0
  else
    let (sgn, body) :=
      if t.startsWith "-" then ((-1 : ℤ), t.drop 1)
      else if t.startsWith "+" then ((1 : ℤ), t.drop 1)
      else ((1 : ℤ), t)
    match body.splitOn "." with
    | [ip] => (parseNatDigits ip.toList).map (fun n => mkRat (sgn * n) 1)
    | [ip, fp] =>
      if ip = "" && fp = "" then none
      else
        let ipv : Option Nat := if ip = "" then some 0 else parseNatDigits ip.toList
        let fpv : Option Nat := if fp = "" then some 0 else parseNatDigits fp.toList
        match ipv, fpv with
        | some i, some f =>
          some (mkRat (sgn * (i * 10 ^ fp.length + f)) (10 ^ fp.length))
        | _, _ => none
    | _ => none

/-- `Number(v)`: JavaScript numeric coercion; `none` models NaN. -/
def toNumber : JSVal → Option ℚ
  | .null => some 0
  | .undefined => none
  | .num q => some q
  | .str s => strToNumber s

/-- `parseInt(s)`: optional sign then longest leading digit run; NaN (`none`)
when no digit is found. -/
def parseIntJS (s : String) : Option ℤ :=
  let t := s.trim
  let (sgn, body) :=
    if t.startsWith "-" then ((-1 : ℤ), t.drop 1)
    else if t.startsWith "+" then ((1 : ℤ), t.drop 1)
    else ((1 : ℤ), t)
  let ds := body.toList.takeWhile Char.isDigit
  (parseNatDigits ds).map (fun n => sgn * n)

/-- Stringification of a value used as a JavaScript object key or in a
template literal.  Numbers with integral value print their integer; the
non-integral case (never reached by this code's inputs) is approximated. -/
def jsKeyString : JSVal → String
  | .null => "null"
  | .undefined => "undefined"
  | .num q => if q.den = 1 then toString q.num else toString q
  | .str s => s

/-- Split a character list at every occurrence of a separator. -/
def splitOnChar (c : Char) : List Char → List (List Char)
  | [] => [[]]
  | x :: xs =>
    let r := splitOnChar c xs
    if x = c then [] :: r
    else (x :: r.headI) :: r.tail

/-- The lines of a text document (split at every newline). -/
def linesOf (s : String) : List String := (splitOnChar (Char.ofNat 10) s.toList).map String.mk

/-- Days from 1970-01-01 to year-month-day of the proleptic Gregorian
calendar (years ≥ 1, as used by every date in this code). -/
def daysFromCivil (y m d : ℕ) : ℤ :=
  let y' : ℕ := if m ≤ 2 then y - 1 else y
  let era : ℕ := y' / 400
  let yoe : ℕ := y' - era * 400
  let mp : ℕ := (m + 9) % 12
  let doy : ℕ := (153 * mp + 2) / 5 + d - 1
  let doe : ℕ := yoe * 365 + yoe / 4 - yoe / 100 + doy
  (era : ℤ) * 146097 + (doe : ℤ) - 719468

/-- Milliseconds in a day. -/
def msPerDay : ℚ := 86400000

/-- Millisecond timestamp of midnight UTC on a given calendar date. -/
def mkDateMs (y m d : ℕ) : ℚ := mkRat (daysFromCivil y m d * 86400000) 1

/-- Largest magnitude of a valid JavaScript Date time value (±8.64e15 ms). -/
def maxDateMs : ℚ := 8640000000000000

/-- `new Date(t)` for a numeric argument `t`: the number is a millisecond
timestamp, Invalid Date (`none`) outside the representable range. -/
def jsNewDateFromMs (t : ℚ) : Option ℚ :=
  if t ≤ maxDateMs ∧ -maxDateMs ≤ t then some t else none

/-- Calendar-string parsing for `new Date(string)`: the `YYYY-MM-DD` forms this
code feeds it (month 1–12, day 1–31); anything else is Invalid Date. -/
def parseDateString (s : String) : Option ℚ :=
  match s.splitOn "-" with
  | [ys, ms, ds] =>
    match parseNatDigits ys.toList, parseNatDigits ms.toList, parseNatDigits ds.toList with
    | some y, some m, some d =>
      if ys.length = 4 ∧ 1 ≤ m ∧ m ≤ 12 ∧ 1 ≤ d ∧ d ≤ 31 then some (mkDateMs y m d)
      else none
    | _, _, _ => none
  | _ => none

/-- `new Date(v)` on a scalar: numbers are millisecond timestamps, strings are
parsed as calendar dates; `none` is Invalid Date. -/
def jsNewDate : JSVal → Option ℚ
  | .num q => jsNewDateFromMs q
  | .str s => parseDateString s
  | .null => some 0
  | .undefined => none

/-- One parsed CSV row.  Each column the code ever reads is a field; a column
absent from the file reads as JavaScript `undefined`. -/
structure Row where
  PLATFORM_NUMBER : JSVal := .undefined
  platform_number : JSVal := .undefined
  FLOAT_ID : JSVal := .undefined
  float_id : JSVal := .undefined
  LATITUDE : JSVal := .undefined
  latitude : JSVal := .undefined
  LONGITUDE : JSVal := .undefined
  longitude : JSVal := .undefined
  PRES : JSVal := .undefined
  TEMP : JSVal := .undefined
  PSAL : JSVal := .undefined
  CYCLE_NUMBER : JSVal := .undefined
  cycle_number : JSVal := .undefined
  PROFILE : JSVal := .undefined
  profile : JSVal := .undefined
  JULD : JSVal := .undefined
  juld : JSVal := .undefined
  DATE : JSVal := .undefined
  date : JSVal := .undefined
  REFERENCE_DATE_TIME : JSVal := .undefined
deriving DecidableEq, Repr

namespace Backend

/-! Embedding of `src/backend/src/index.js`: the in-memory Express variant
that loads every CSV file into module-level state at startup. -/

/-- `isValidValue` of index.js: not null/undefined, numeric, not the 99999
sentinel, above -999, not the empty string. -/
def isValidValue (value : JSVal) : Bool :=
  value != .null && value != .undefined &&
    (match toNumber value with
     | none => false
     | some n => n != 99999 && n > -999) &&
    value != .str ""

/-- `isValidCoordinate` of index.js: within ±180.  In `loadCSVData` it is only
applied to already-coerced finite numbers, so it is modelled over ℚ (the NaN
guard of the source cannot fire there). -/
def isValidCoordinate (coord : ℚ) : Bool := -180 ≤ coord && coord ≤ 180

/-- Scan for the first position where eight digits are immediately followed by
`_prof.csv`, as the regex of `extractDateFromFilename` does. -/
def findDateToken : List Char → Option (List Char)
  | [] => none
  | c :: rest =>
    let cs := c :: rest
    if (cs.take 8).length = 8 ∧ (cs.take 8).all Char.isDigit
        ∧ (cs.drop 8).take 9 = "_prof.csv".toList
    then some (cs.take 8)
    else findDateToken rest

/-- `extractDateFromFilename`: decode the 8-digit `YYYYMMDD` token of a
`_prof.csv` file name; the fixed default 2020-11-01 when absent. -/
def extractDateFromFilename (filename : String) : Option ℚ :=
  match findDateToken filename.toList with
  | some ds =>
    let s := String.mk ds
    parseDateString ((s.take 4) ++ "-" ++ ((s.drop 4).take 2) ++ "-" ++ (s.drop 6))
  | none => some (mkDateMs 2020 11 1)

/-- Append a row to its profile group, creating the group on first sight.
JavaScript enumerates integer-like object keys in ascending order rather than
insertion order; the properties proved here never depend on the relative
order of distinct groups, so insertion order is used. -/
def insertGroup (groups : List (String × List Row)) (key : String) (row : Row) :
    List (String × List Row) :=
  if groups.any (fun g => g.1 == key) then
    groups.map (fun g => if g.1 == key then (g.1, g.2 ++ [row]) else g)
  else groups ++ [(key, [row])]

/-- `groupByProfile`: partition the rows of one file by
`row.PROFILE || row.profile || 0`, preserving row order within each group. -/
def groupByProfile (data : List Row) : List (String × List Row) :=
  data.foldl
    (fun groups row =>
      insertGroup groups (jsKeyString (jsOr row.PROFILE (jsOr row.profile (.num 0)))) row)
    []

/-- One stored measurement (the object literal built in `loadCSVData`). -/
structure Measurement where
  pressure : ℚ
  temperature : ℚ
  salinity : Option ℚ
  depth : ℚ
  quality_flag : String
deriving DecidableEq, Repr

/-- One element of the module-level `FLOAT_DATA` array. -/
structure FloatRec where
  float_id : JSVal
  wmo_number : JSVal
  last_position_lat : ℚ
  last_position_lon : ℚ
  status : String
  platform_type : String
  last_profile_date : Option ℚ
deriving DecidableEq, Repr

/-- One element of a `MEASUREMENTS_DATA[floatId]` array. -/
structure ProfileEntry where
  profile_id : String
  date : Option ℚ
  measurements : List Measurement
deriving DecidableEq, Repr

/-- The module-level mutable state of index.js; `MEASUREMENTS_DATA` is an
object keyed by float id, modelled as an association list. -/
structure ServerState where
  FLOAT_DATA : List FloatRec
  MEASUREMENTS_DATA : List (String × List ProfileEntry)
deriving DecidableEq, Repr

/-- The measurement-building pipeline of `loadCSVData`: keep the rows whose
pressure and temperature are both valid, then build the stored record.  The
decimal literal 1.019716 is modelled as the exact rational it denotes.
`isValidValue` guarantees the `toNumber` coercions succeed, so `getD 0` is
never the fallback on a kept row. -/
def buildMeasurements (profileData : List Row) : List Measurement :=
  (profileData.filter (fun row => isValidValue row.PRES && isValidValue row.TEMP)).map
    (fun row =>
      { pressure := (toNumber row.PRES).getD 0
        temperature := (toNumber row.TEMP).getD 0
        salinity := if isValidValue row.PSAL then some ((toNumber row.PSAL).getD 0) else none
        depth := qmul ((toNumber row.PRES).getD 0) (mkRat 1019716 1000000)
        quality_flag := "1" })

/-- Left-pad a string with zeros to the given length (`String.padStart(n, '0')`). -/
def padStartZero (s : String) (n : ℕ) : String :=
  if n ≤ s.length then s else String.mk (List.replicate (n - s.length) '0') ++ s

/-- Push a profile entry onto `MEASUREMENTS_DATA[key]`, creating the array on
first sight. -/
def pushAssoc (m : List (String × List ProfileEntry)) (key : String) (e : ProfileEntry) :
    List (String × List ProfileEntry) :=
  if m.any (fun g => g.1 == key) then
    m.map (fun g => if g.1 == key then (g.1, g.2 ++ [e]) else g)
  else m ++ [(key, [e])]

/-- The body of the per-profile `forEach` of `loadCSVData`: resolve float id
and coordinates from the first row, skip the group on invalid coordinates,
add the float on first sight (an existing float is left untouched), and push
the profile's measurements. -/
def processProfile (date : Option ℚ) (st : ServerState) (pg : String × List Row) :
    ServerState :=
  match pg.2 with
  | [] => st
  | sample :: _ =>
    let profileId := pg.1
    let floatId :=
      jsOr sample.PLATFORM_NUMBER (jsOr sample.platform_number
        (jsOr sample.FLOAT_ID (jsOr sample.float_id
          (.str ("2901" ++ padStartZero profileId 3)))))
    let lat : Option ℚ :=
      if isValidValue sample.LATITUDE then toNumber sample.LATITUDE
      else if isValidValue sample.latitude then toNumber sample.latitude
      else none
    let lon : Option ℚ :=
      if isValidValue sample.LONGITUDE then toNumber sample.LONGITUDE
      else if isValidValue sample.longitude then toNumber sample.longitude
      else none
    match lat, lon with
    | some la, some lo =>
      if isValidCoordinate la && isValidCoordinate lo then
        let fd :=
          if st.FLOAT_DATA.any (fun f => f.float_id == floatId) then st.FLOAT_DATA
          else st.FLOAT_DATA ++
            [{ float_id := floatId
               wmo_number := floatId
               last_position_lat := la
               last_position_lon := lo
               status := "active"
               platform_type := "ARGO_FLOAT"
               last_profile_date := date }]
        let entry : ProfileEntry :=
          { profile_id := jsKeyString floatId ++ "_" ++ profileId
            date := date
            measurements := buildMeasurements pg.2 }
        { FLOAT_DATA := fd
          MEASUREMENTS_DATA := pushAssoc st.MEASUREMENTS_DATA (jsKeyString floatId) entry }
      else st
    | _, _ => st

/-- One discovered CSV file: its name and its parsed rows. -/
structure CsvFile where
  name : String
  rows : List Row
deriving DecidableEq, Repr

/-- Process one file: derive its date from the name, group rows by profile,
and fold every group into the server state. -/
def processFile (st : ServerState) (file : CsvFile) : ServerState :=
  (groupByProfile file.rows).foldl (processProfile (extractDateFromFilename file.name)) st

/-- `loadCSVData`: fold the discovered files (already in the sorted discovery
order the driver establishes) into the empty state. -/
def loadCSVData (files : List CsvFile) : ServerState :=
  files.foldl processFile { FLOAT_DATA := [], MEASUREMENTS_DATA := [] }

/-- `inBbox`: closed-rectangle containment after sorting the two corner
pairs with min/max. -/
def inBbox (item : FloatRec) (bbox : ℚ × ℚ × ℚ × ℚ) : Bool :=
  let (lat1, lon1, lat2, lon2) := bbox
  let minLat := min lat1 lat2
  let maxLat := max lat1 lat2
  let minLon := min lon1 lon2
  let maxLon := max lon1 lon2
  minLat ≤ item.last_position_lat && item.last_position_lat ≤ maxLat &&
    minLon ≤ item.last_position_lon && item.last_position_lon ≤ maxLon

/-- `d >= s` on two Dates; false when either is Invalid (NaN compares false). -/
def optLe (a b : Option ℚ) : Bool :=
  match a, b with
  | some x, some y => decide (x ≤ y)
  | _, _ => false

/-- The `/api/floats` handler: status equality, bounding box, and inclusive
date range, applied in that order as an AND of the supplied filters. -/
def listFloats (data : List FloatRec) (status : Option String)
    (bbox : Option (ℚ × ℚ × ℚ × ℚ)) (dateRange : Option (Option ℚ × Option ℚ)) :
    List FloatRec :=
  let r1 := match status with
    | some s => data.filter (fun f => f.status == s)
    | none => data
  let r2 := match bbox with
    | some b => r1.filter (fun f => inBbox f b)
    | none => r1
  match dateRange with
  | some (s, e) => r2.filter (fun f => optLe s f.last_profile_date && optLe f.last_profile_date e)
  | none => r2

/-- A profile as serialized by `/api/floats/:floatId/profiles`; `cycle_number`
is `parseInt` of the second `_`-separated token plus one (`none` = NaN). -/
structure ProfileOut where
  id : String
  date : Option ℚ
  latitude : ℚ
  longitude : ℚ
  cycle_number : Option ℤ
deriving DecidableEq, Repr

/-- A trajectory point as serialized by `/api/floats/:floatId/trajectory`. -/
structure TrajPoint where
  timestamp : Option ℚ
  latitude : ℚ
  longitude : ℚ
deriving DecidableEq, Repr

/-- `MEASUREMENTS_DATA[k]` lookup. -/
def lookupAssoc (m : List (String × List ProfileEntry)) (k : String) :
    Option (List ProfileEntry) :=
  (m.find? (fun g => g.1 == k)).map (fun g => g.2)

/-- The float whose `float_id` strictly equals the (string) URL parameter. -/
def findFloat (st : ServerState) (floatId : String) : Option FloatRec :=
  st.FLOAT_DATA.find? (fun f => f.float_id == .str floatId)

/-- `/api/floats/:floatId/profiles`: map `MEASUREMENTS_DATA[floatId] || []`. -/
def profilesForFloat (st : ServerState) (floatId : String) : List ProfileOut :=
  ((lookupAssoc st.MEASUREMENTS_DATA floatId).getD []).map
    (fun p =>
      { id := p.profile_id
        date := p.date
        latitude := ((findFloat st floatId).map (fun f => f.last_position_lat)).getD 0
        longitude := ((findFloat st floatId).map (fun f => f.last_position_lon)).getD 0
        cycle_number := (parseIntJS ((p.profile_id.splitOn "_").getD 1 "undefined")).map
          (fun n => n + 1) })

/-- `/api/floats/:floatId/trajectory`: one point per stored profile entry. -/
def trajectoryForFloat (st : ServerState) (floatId : String) : List TrajPoint :=
  ((lookupAssoc st.MEASUREMENTS_DATA floatId).getD []).map
    (fun p =>
      { timestamp := p.date
        latitude := ((findFloat st floatId).map (fun f => f.last_position_lat)).getD 0
        longitude := ((findFloat st floatId).map (fun f => f.last_position_lon)).getD 0 })

/-- `/api/profiles/:profileId/measurements`: scan every float's entries and
return the first profile with a matching id, else the empty list. -/
def measurementsForProfile (st : ServerState) (profileId : String) : List Measurement :=
  match st.MEASUREMENTS_DATA.findSome? (fun g => g.2.find? (fun p => p.profile_id == profileId)) with
  | some p => p.measurements
  | none => []

/-- `/api/export/csv/:floatId`: the handler returns a fixed two-row sample
document built only from the float id; it never consults the stored data. -/
def exportCsv (floatId : String) : String :=
  "float_id,profile_id,pressure,temperature,salinity\n" ++
    floatId ++ ",1,0,28.1,35.2\n" ++ floatId ++ ",1,50,27.6,35.1"

end Backend

namespace Proc

/-! Embedding of `src/unnamed/part_001`: the `ArgoCsvProcessor` class that
ingests the same CSV files into a PostgreSQL database through Prisma.  Its
database writes are modelled as pure values: `upsertFloat` transforms a list
of float rows, `insertMeasurements` returns the list of measurement rows it
would create, and `processProfileData` returns the entities produced for one
profile group (`none` when the group is skipped or the per-profile catch
swallows an error). -/

/-- `isValidValue` of ArgoCsvProcessor (textually identical to the index.js
predicate). -/
def isValidValue (value : JSVal) : Bool :=
  value != .null && value != .undefined &&
    (match toNumber value with
     | none => false
     | some n => n != 99999 && n > -999) &&
    value != .str ""

/-- `isValidCoordinate` of ArgoCsvProcessor: numeric and within ±90.  Applied
to raw row values here, so it takes a `JSVal`. -/
def isValidCoordinate (coord : JSVal) : Bool :=
  match toNumber coord with
  | none => false
  | some q => -90 ≤ q && q ≤ 90

/-- `pressureToDepth`: decibars to metres. -/
def pressureToDepth (pressure : ℚ) : ℚ := qmul pressure (mkRat 1019716 1000000)

/-- One row `insertMeasurements` would create (the Prisma foreign key is
attached by the caller and omitted here). -/
structure Meas where
  pressure : ℚ
  temperature : ℚ
  salinity : Option ℚ
  depth : ℚ
  quality_flag : String
deriving DecidableEq, Repr

/-- `insertMeasurements`: the source pushes onto an array inside a loop over
the rows, keeping exactly those whose pressure and temperature are both
valid; that loop is the filter-map below. -/
def insertMeasurements (measurements : List Row) : List Meas :=
  (measurements.filter (fun row => isValidValue row.PRES && isValidValue row.TEMP)).map
    (fun row =>
      { pressure := (toNumber row.PRES).getD 0
        temperature := (toNumber row.TEMP).getD 0
        salinity := if isValidValue row.PSAL then some ((toNumber row.PSAL).getD 0) else none
        depth := pressureToDepth ((toNumber row.PRES).getD 0)
        quality_flag := "1" })

/-- A row of the `argo_floats` table as `upsertFloat` writes it. -/
structure DbFloat where
  float_id : String
  wmo_number : String
  last_position_lat : ℚ
  last_position_lon : ℚ
  deployment_date : Option ℚ
  status : String
  platform_type : String
deriving DecidableEq, Repr

/-- `upsertFloat`: update `last_position` when the float id exists, otherwise
create the row with the fixed defaults of the source. -/
def upsertFloat (db : List DbFloat) (floatId : String) (lat lon : ℚ) : List DbFloat :=
  if db.any (fun f => f.float_id == floatId) then
    db.map (fun f =>
      if f.float_id == floatId then
        { f with last_position_lat := lat, last_position_lon := lon }
      else f)
  else
    db ++
      [{ float_id := floatId
         wmo_number := floatId
         last_position_lat := lat
         last_position_lon := lon
         deployment_date := some (mkDateMs 2020 11 1)
         status := "active"
         platform_type := "ARGO_FLOAT" }]

/-- One position recorded by `extractFloatMetadata`. -/
structure MetaPosition where
  date : Option ℚ
  latitude : ℚ
  longitude : ℚ
deriving DecidableEq, Repr

/-- One profile recorded by `extractFloatMetadata`. -/
structure MetaProfile where
  date : Option ℚ
  profile_id : String
  latitude : ℚ
  longitude : ℚ
  cycle_number : JSVal
deriving DecidableEq, Repr

/-- The per-float accumulator of `extractFloatMetadata`. -/
structure FloatMeta where
  float_id : String
  wmo_number : String
  positions : List MetaPosition
  profiles : List MetaProfile
  status : String
deriving DecidableEq, Repr

/-- Create the float's metadata entry on first sight and append the position
and profile, as the body of the metadata loop does. -/
def pushMeta (fd : List (String × FloatMeta)) (key : String) (pos : MetaPosition)
    (prof : MetaProfile) : List (String × FloatMeta) :=
  let fd' :=
    if fd.any (fun g => g.1 == key) then fd
    else fd ++
      [(key,
        { float_id := key
          wmo_number := key
          positions := []
          profiles := []
          status := "active" })]
  fd'.map (fun g =>
    if g.1 == key then
      (g.1,
        { g.2 with
          positions := g.2.positions ++ [pos]
          profiles := g.2.profiles ++ [prof] })
    else g)

/-- The body of the per-profile loop of `extractFloatMetadata`: the raw
coordinates are resolved by the truthiness chains `LATITUDE || latitude`, so
a `0` coordinate fails the `lat && lon && …` guard and the group records
nothing. -/
def metaProfileStep (date : Option ℚ) (fd : List (String × FloatMeta))
    (pg : String × List Row) : List (String × FloatMeta) :=
  match pg.2 with
  | [] => fd
  | sample :: _ =>
    let lat := jsOr sample.LATITUDE sample.latitude
    let lon := jsOr sample.LONGITUDE sample.longitude
    let floatId :=
      jsOr sample.PLATFORM_NUMBER (jsOr sample.platform_number
        (jsOr sample.FLOAT_ID (jsOr sample.float_id (.str pg.1))))
    if lat.truthy && lon.truthy && isValidCoordinate lat && isValidCoordinate lon then
      pushMeta fd (jsKeyString floatId)
        { date := date
          latitude := (toNumber lat).getD 0
          longitude := (toNumber lon).getD 0 }
        { date := date
          profile_id := pg.1
          latitude := (toNumber lat).getD 0
          longitude := (toNumber lon).getD 0
          cycle_number := jsOr sample.CYCLE_NUMBER (jsOr sample.cycle_number (.num 0)) }
    else fd

/-- `extractFloatMetadata` over the discovered files (in discovery order). -/
def extractFloatMetadata (files : List Backend.CsvFile) : List (String × FloatMeta) :=
  files.foldl
    (fun fd file =>
      (Backend.groupByProfile file.rows).foldl
        (metaProfileStep (Backend.extractDateFromFilename file.name)) fd)
    []

/-- `floatMetadata[floatId]` lookup. -/
def lookupMeta (fd : List (String × FloatMeta)) (k : String) : Option FloatMeta :=
  (fd.find? (fun g => g.1 == k)).map (fun g => g.2)

/-- The entities `processProfileData` produces for one profile group. -/
structure ProcResult where
  floatId : String
  lat : ℚ
  lon : ℚ
  cycle : JSVal
  date : Option ℚ
  meas : List Meas
deriving DecidableEq, Repr

/-- `processProfileData`: resolve the float id and coordinates from the first
row with `||` chains (so a `0` coordinate reads as absent), fall back to the
float's last recorded metadata position, and skip the group (`none`) when no
valid coordinate results.  `profileId` is the group key, which contains no
path separator, so `path.basename(profileId)` is `profileId` itself. -/
def processProfileData (profileId : String) (profileData : List Row)
    (floatMetadata : List (String × FloatMeta)) : Option ProcResult :=
  match profileData with
  | [] => none
  | sample :: _ =>
    let floatId :=
      jsOr sample.PLATFORM_NUMBER (jsOr sample.platform_number
        (jsOr sample.FLOAT_ID (jsOr sample.float_id (.str profileId))))
    let lat0 := jsOr sample.LATITUDE (jsOr sample.latitude .null)
    let lon0 := jsOr sample.LONGITUDE (jsOr sample.longitude .null)
    let cycleNumber := jsOr sample.CYCLE_NUMBER (jsOr sample.cycle_number (.num 0))
    let date := Backend.extractDateFromFilename profileId
    let needFallback :=
      !lat0.truthy || !lon0.truthy || !isValidCoordinate lat0 || !isValidCoordinate lon0
    let resolved :=
      match (if needFallback then lookupMeta floatMetadata (jsKeyString floatId) else none) with
      | some meta =>
        match meta.positions.getLast? with
        | some lp => (jsOr lat0 (.num lp.latitude), jsOr lon0 (.num lp.longitude))
        | none => (lat0, lon0)
      | none => (lat0, lon0)
    let lat1 := resolved.1
    let lon1 := resolved.2
    if !lat1.truthy || !lon1.truthy || !isValidCoordinate lat1 || !isValidCoordinate lon1 then
      none
    else
      some
        { floatId := jsKeyString floatId
          lat := (toNumber lat1).getD 0
          lon := (toNumber lon1).getD 0
          cycle := cycleNumber
          date := date
          meas := insertMeasurements profileData }

/-- `extractDate`: probe the date aliases with `||`; a falsy result is the
fixed default 2020-11-01.  Otherwise `new Date(value)` — which interprets a
number as a millisecond timestamp — and only when that is Invalid *and* the
value is a number, reinterpret it as days since the ARGO epoch 1950-01-01;
a still-Invalid date falls back to the fixed default.  Total by construction. -/
def extractDate (row : Row) : ℚ :=
  let dateStr :=
    jsOr row.JULD (jsOr row.juld (jsOr row.DATE (jsOr row.date row.REFERENCE_DATE_TIME)))
  if !dateStr.truthy then mkDateMs 2020 11 1
  else
    let d1 :=
      match jsNewDate dateStr with
      | some t => some t
      | none =>
        match dateStr with
        | .num d => jsNewDateFromMs (qadd (mkDateMs 1950 1 1) (qmul d msPerDay))
        | _ => none
    match d1 with
    | some t => t
    | none => mkDateMs 2020 11 1

end Proc

/-! Concrete fixtures: the scenario inputs named by the specification. -/

/-- Scenario D, first file: float 2901001 at (10.0, 70.0). -/
def fileD1 : Backend.CsvFile :=
  { name := "20201101_prof.csv"
    rows := [{ PLATFORM_NUMBER := .str "2901001", LATITUDE := .num 10, LONGITUDE := .num 70,
               PRES := .num 5, TEMP := .num 28 }] }

/-- Scenario D, second file: float 2901001 at (10.5, 70.3). -/
def fileD2 : Backend.CsvFile :=
  { name := "20201102_prof.csv"
    rows := [{ PLATFORM_NUMBER := .str "2901001", LATITUDE := .num (mkRat 21 2),
               LONGITUDE := .num (mkRat 703 10), PRES := .num 6, TEMP := .num 27 }] }

/-- Scenario B: a file whose one row has latitude 95.0, longitude 70.0, with
no prior position known for its float. -/
def fileB95 : Backend.CsvFile :=
  { name := "20201101_prof.csv"
    rows := [{ PLATFORM_NUMBER := .str "2901009", LATITUDE := .num 95, LONGITUDE := .num 70,
               PRES := .num 5, TEMP := .num 28 }] }

/-- The Scenario B row for the database variant. -/
def rowB95 : Row :=
  { PLATFORM_NUMBER := .str "2901009", LATITUDE := .num 95, LONGITUDE := .num 70 }

/-- Scenario A row: sentinel pressure with a valid temperature. -/
def rowA : Row := { PRES := .num 99999, TEMP := .num (mkRat 271 10) }

/-- Equator row: platform 2901001 with latitude exactly 0. -/
def rowEq : Row :=
  { PLATFORM_NUMBER := .str "2901001", LATITUDE := .num 0, LONGITUDE := .num 70 }

/-- Metadata holding one prior position (5, 60) for float 2901001. -/
def mdA : List (String × Proc.FloatMeta) :=
  [("2901001",
    { float_id := "2901001", wmo_number := "2901001"
      positions := [{ date := none, latitude := 5, longitude := 60 }]
      profiles := [], status := "active" })]

/-- The entities the database variant produces for the equator row over `mdA`. -/
def resEq : Proc.ProcResult :=
  { floatId := "2901001", lat := 5, lon := 70, cycle := .num 0,
    date := some (mkDateMs 2020 11 1), meas := [] }

/-- The database row created by upserting float 2901001 at (10.5, 70.3). -/
def dbFloatD : Proc.DbFloat :=
  { float_id := "2901001", wmo_number := "2901001",
    last_position_lat := mkRat 21 2, last_position_lon := mkRat 703 10,
    deployment_date := some (mkDateMs 2020 11 1), status := "active",
    platform_type := "ARGO_FLOAT" }

/-- A plain valid row for witnesses: pressure 10 dbar, temperature 20 °C. -/
def rowOk : Row := { PRES := .num 10, TEMP := .num 20 }

/-- The measurement built from `rowOk`. -/
def measOk : Backend.Measurement :=
  { pressure := 10, temperature := 20, salinity := none,
    depth := qmul 10 (mkRat 1019716 1000000), quality_flag := "1" }

/-- The measurement the database variant builds from `rowOk`. -/
def measOkProc : Proc.Meas :=
  { pressure := 10, temperature := 20, salinity := none,
    depth := Proc.pressureToDepth 10, quality_flag := "1" }

/-! Helper lemmas. -/

/-- `qmul` computes rational multiplication. -/
theorem qmul_eq (a b : ℚ) : qmul a b = a * b := by
  rw [qmul, Rat.mul_def, Rat.normalize_eq_mkRat]

/-- `qadd` computes rational addition. -/
theorem qadd_eq (a b : ℚ) : qadd a b = a + b := (Rat.add_def' a b).symm

/-- C1 (counterexample): in the in-memory ingestion cited by the claim, two
files observing float 2901001 at (10.0, 70.0) then (10.5, 70.3) leave the
FloatRecord at the FIRST position (10.0, 70.0) — an existing float is never
updated — refuting "last_position equals the position from the last file
processed"; two trajectory points do exist. -/
theorem C1_counterexample :
    ((Backend.loadCSVData [fileD1, fileD2]).FLOAT_DATA.map
        (fun f => (f.last_position_lat, f.last_position_lon)) = [((10 : ℚ), (70 : ℚ))]) ∧
    ((10 : ℚ), (70 : ℚ)) ≠ (mkRat 21 2, mkRat 703 10) ∧
    (Backend.trajectoryForFloat (Backend.loadCSVData [fileD1, fileD2]) "2901001").length = 2 := by
  decide

/-- C1 (amended): last-write-wins holds in the database variant — any record
returned by `upsertFloat` under the upserted id carries the upserted
position, and in particular two successive upserts for float 2901001 leave it
at (10.5, 70.3) — while the in-memory variant keeps the first observed
position (10.0, 70.0) and stores two per-profile entries, hence two
trajectory points, for the float. -/
theorem C1_theorem :
    (∀ (db : List Proc.DbFloat) (floatId : String) (lat lon : ℚ) (f : Proc.DbFloat),
        f ∈ Proc.upsertFloat db floatId lat lon → f.float_id = floatId →
          f.last_position_lat = lat ∧ f.last_position_lon = lon) ∧
    ((Proc.upsertFloat (Proc.upsertFloat [] "2901001" 10 70) "2901001"
          (mkRat 21 2) (mkRat 703 10)).map
        (fun f => (f.float_id, f.last_position_lat, f.last_position_lon)) =
      [("2901001", mkRat 21 2, mkRat 703 10)]) ∧
    ((Backend.loadCSVData [fileD1, fileD2]).FLOAT_DATA.map
        (fun f => (f.last_position_lat, f.last_position_lon)) = [((10 : ℚ), (70 : ℚ))]) ∧
    (Backend.trajectoryForFloat (Backend.loadCSVData [fileD1, fileD2]) "2901001").length = 2 := by
  refine ⟨?_, by decide, by decide, by decide⟩
  intro db floatId lat lon f hf hid
  unfold Proc.upsertFloat at hf
  split at hf
  next h =>
    obtain ⟨g, hg, hfg⟩ := List.mem_map.mp hf
    by_cases h2 : g.float_id == floatId
    · rw [if_pos h2] at hfg
      subst hfg
      exact ⟨rfl, rfl⟩
    · rw [if_neg h2] at hfg
      subst hfg
      exact absurd (beq_iff_eq.mpr hid) h2
  next h =>
    rcases List.mem_append.mp hf with hf' | hf'
    · exact absurd (List.any_eq_true.mpr ⟨f, hf', by simp [hid]⟩) h
    · simp only [List.mem_singleton] at hf'
      subst hf'
      exact ⟨rfl, rfl⟩

/-- C1 witness: the record produced by a concrete upsert carries the upserted
position. -/
theorem C1_witness :
    dbFloatD ∈ Proc.upsertFloat [] "2901001" (mkRat 21 2) (mkRat 703 10) ∧
    dbFloatD.float_id = "2901001" ∧
    (dbFloatD.last_position_lat = mkRat 21 2 ∧ dbFloatD.last_position_lon = mkRat 703 10) :=
  ⟨by decide, rfl,
   C1_theorem.1 [] "2901001" (mkRat 21 2) (mkRat 703 10) dbFloatD (by decide) rfl⟩

/-- C2 (code bug): the export handler returns a fixed two-row sample document
built only from the float id; for float 2901001, whose store holds exactly
one MeasurementRecord, the export still has the correct header but two fixed
data rows — not one row per MeasurementRecord. -/
theorem C2_theorem :
    (linesOf (Backend.exportCsv "2901001") =
      ["float_id,profile_id,pressure,temperature,salinity",
       "2901001,1,0,28.1,35.2", "2901001,1,50,27.6,35.1"]) ∧
    ((Backend.loadCSVData [fileD1]).MEASUREMENTS_DATA.map
        (fun g => (g.1, g.2.map (fun p => p.measurements.length))) = [("2901001", [1])]) := by
  decide

/-- C3 (counterexample): in the in-memory variant cited by the claim,
`isValidCoordinate` accepts any value within ±180, so latitude 95.0 passes
coordinate validity and the row group is ingested (a float is created at
latitude 95) rather than skipped. -/
theorem C3_counterexample :
    Backend.isValidCoordinate 95 = true ∧
    (Backend.loadCSVData [fileB95]).FLOAT_DATA.map (fun f => f.last_position_lat) =
      [(95 : ℚ)] := by
  decide

/-- C3 (amended): only the database variant's predicate bounds both
coordinates by ±90 — whatever it accepts is numeric and within [-90, 90], it
rejects latitude 95, and a group whose row has latitude 95 and whose float
has no prior position is skipped with no entities — while the in-memory
variant's predicate accepts anything numeric within ±180, so latitude 95.0
passes there. -/
theorem C3_theorem :
    (∀ coord : JSVal, Proc.isValidCoordinate coord = true →
        ∃ q : ℚ, toNumber coord = some q ∧ -90 ≤ q ∧ q ≤ 90) ∧
    Proc.isValidCoordinate (.num 95) = false ∧
    Proc.processProfileData "0" [rowB95] [] = none ∧
    Backend.isValidCoordinate 95 = true := by
  refine ⟨?_, by decide, by decide, by decide⟩
  intro coord h
  unfold Proc.isValidCoordinate at h
  cases hc : toNumber coord with
  | none => rw [hc] at h; exact absurd h (by decide)
  | some q =>
    rw [hc] at h
    simp only [Bool.and_eq_true, decide_eq_true_eq] at h
    exact ⟨q, rfl, h.1, h.2⟩

/-- C3 witness: the predicate of the database variant accepts 5, which is
numeric and within the physically valid band. -/
theorem C3_witness :
    Proc.isValidCoordinate (.num 5) = true ∧
    (∃ q : ℚ, toNumber (.num 5) = some q ∧ -90 ≤ q ∧ q ≤ 90) :=
  ⟨by decide, C3_theorem.1 (.num 5) (by decide)⟩

/-- C4 (code bug): `extractDate` on `{JULD: 25854}` returns the timestamp
25854 — `new Date` reads a numeric argument as milliseconds since 1970, so
the value decodes to 1970-01-01T00:00:25.854Z and the Julian branch is dead
code — whereas the claim requires 1950-01-01 plus 25854 days, which is
2020-10-14 (the specification's example value 2020-11-01 would be 25872
days).  An absent input yields the fixed default 2020-11-01 regardless of
any file name. -/
theorem C4_theorem :
    Proc.extractDate { JULD := .num 25854 } = 25854 ∧
    mkDateMs 1950 1 1 + 25854 * msPerDay = mkDateMs 2020 10 14 ∧
    (25854 : ℚ) ≠ mkDateMs 2020 10 14 ∧
    mkDateMs 2020 10 14 ≠ mkDateMs 2020 11 1 ∧
    Proc.extractDate {} = mkDateMs 2020 11 1 := by
  refine ⟨by decide, ?_, by decide, by decide, by decide⟩
  rw [← qadd_eq, ← qmul_eq]
  decide

/-- `0 || b` in JavaScript selects `b`. -/
theorem jsOr_num_zero (b : JSVal) : jsOr (.num 0) b = b := by
  simp [jsOr, JSVal.truthy]

/-- `undefined || b` in JavaScript selects `b`. -/
theorem jsOr_undefined (b : JSVal) : jsOr .undefined b = b := rfl

/-- `null || b` in JavaScript selects `b`. -/
theorem jsOr_null (b : JSVal) : jsOr .null b = b := rfl

/-- C5: the validity predicate rejects null, undefined, the empty string, the
99999 sentinel, every non-numeric value (NaN coercion) and every numeric
value at or below -999, and accepts every other number; the predicates of
the two ingestion variants agree. -/
theorem C5_theorem :
    Backend.isValidValue .null = false ∧
    Backend.isValidValue .undefined = false ∧
    Backend.isValidValue (.str "") = false ∧
    Backend.isValidValue (.num 99999) = false ∧
    (∀ v : JSVal, toNumber v = none → Backend.isValidValue v = false) ∧
    (∀ q : ℚ, q ≤ -999 → Backend.isValidValue (.num q) = false) ∧
    (∀ q : ℚ, q ≠ 99999 → -999 < q → Backend.isValidValue (.num q) = true) ∧
    (∀ v : JSVal, Backend.isValidValue v = Proc.isValidValue v) := by
  refine ⟨by decide, by decide, by simp [Backend.isValidValue], by decide, ?_, ?_, ?_,
    fun v => rfl⟩
  · intro v h
    simp [Backend.isValidValue, h]
  · intro q h
    have h' : decide (q > -999) = false := decide_eq_false (not_lt.mpr h)
    simp [Backend.isValidValue, toNumber, h']
  · intro q h1 h2
    have h1' : (q != 99999) = true := bne_iff_ne.mpr h1
    have h2' : decide (q > -999) = true := decide_eq_true h2
    simp [Backend.isValidValue, toNumber, h1', h2']

/-- C5 witness: concrete instances of the quantified parts — a NaN coercion,
a value below -999, and an ordinary numeric value. -/
theorem C5_witness :
    toNumber .undefined = none ∧ Backend.isValidValue .undefined = false ∧
    ((-1000 : ℚ) ≤ -999 ∧ Backend.isValidValue (.num (-1000)) = false) ∧
    ((5 : ℚ) ≠ 99999 ∧ -999 < (5 : ℚ) ∧ Backend.isValidValue (.num 5) = true) :=
  ⟨rfl, C5_theorem.2.2.2.2.1 .undefined rfl,
   ⟨by norm_num, C5_theorem.2.2.2.2.2.1 (-1000) (by norm_num)⟩,
   ⟨by norm_num, by norm_num, C5_theorem.2.2.2.2.2.2.1 5 (by norm_num) (by norm_num)⟩⟩

/-- C6: with a bounding box supplied (and no other filter), `list_floats`
returns exactly the floats whose last position lies in the closed rectangle
formed by sorting the corner coordinates, and swapping the corner pairs —
in particular (25,78,12,50) versus (12,50,25,78) — leaves the result
unchanged. -/
theorem C6_theorem :
    (∀ (data : List Backend.FloatRec) (lat1 lon1 lat2 lon2 : ℚ) (f : Backend.FloatRec),
        f ∈ Backend.listFloats data none (some (lat1, lon1, lat2, lon2)) none ↔
          (f ∈ data ∧ min lat1 lat2 ≤ f.last_position_lat ∧
            f.last_position_lat ≤ max lat1 lat2 ∧ min lon1 lon2 ≤ f.last_position_lon ∧
            f.last_position_lon ≤ max lon1 lon2)) ∧
    (∀ (data : List Backend.FloatRec) (lat1 lon1 lat2 lon2 : ℚ),
        Backend.listFloats data none (some (lat2, lon2, lat1, lon1)) none =
          Backend.listFloats data none (some (lat1, lon1, lat2, lon2)) none) ∧
    (∀ data : List Backend.FloatRec,
        Backend.listFloats data none (some (25, 78, 12, 50)) none =
          Backend.listFloats data none (some (12, 50, 25, 78)) none) := by
  have hswap : ∀ (data : List Backend.FloatRec) (lat1 lon1 lat2 lon2 : ℚ),
      Backend.listFloats data none (some (lat2, lon2, lat1, lon1)) none =
        Backend.listFloats data none (some (lat1, lon1, lat2, lon2)) none := by
    intro data lat1 lon1 lat2 lon2
    simp only [Backend.listFloats]
    congr 1
    funext f
    simp only [Backend.inBbox]
    rw [min_comm lat2 lat1, max_comm lat2 lat1, min_comm lon2 lon1, max_comm lon2 lon1]
  refine ⟨?_, hswap, fun data => hswap data 12 50 25 78⟩
  intro data lat1 lon1 lat2 lon2 f
  simp [Backend.listFloats, Backend.inBbox, List.mem_filter, and_assoc]

/-- C7: both ingestion variants create a MeasurementRecord for a row exactly
when pressure and temperature both pass the validity predicate, and Scenario
A's row (sentinel pressure 99999, temperature 27.1) yields none. -/
theorem C7_theorem :
    (∀ rows : List Row, (Backend.buildMeasurements rows).length =
        (rows.filter (fun r => Backend.isValidValue r.PRES &&
          Backend.isValidValue r.TEMP)).length) ∧
    (∀ row : Row, Backend.buildMeasurements [row] = [] ↔
        ¬(Backend.isValidValue row.PRES = true ∧ Backend.isValidValue row.TEMP = true)) ∧
    (∀ rows : List Row, (Proc.insertMeasurements rows).length =
        (rows.filter (fun r => Proc.isValidValue r.PRES &&
          Proc.isValidValue r.TEMP)).length) ∧
    Backend.buildMeasurements [rowA] = [] ∧
    Proc.insertMeasurements [rowA] = [] := by
  refine ⟨?_, ?_, ?_, by decide, by decide⟩
  · intro rows
    simp [Backend.buildMeasurements]
  · intro row
    cases hp : Backend.isValidValue row.PRES <;>
      cases ht : Backend.isValidValue row.TEMP <;>
        simp [Backend.buildMeasurements, List.filter_cons, hp, ht]
  · intro rows
    simp [Proc.insertMeasurements]

/-- C8: for a float id under which no profile entries are stored, the profile
and trajectory queries return the empty sequence, and for a profile id that
no stored profile carries, the measurement query returns the empty sequence;
all three operations are total functions and signal no error. -/
theorem C8_theorem :
    (∀ (st : Backend.ServerState) (floatId : String),
        (∀ g ∈ st.MEASUREMENTS_DATA, g.1 ≠ floatId) →
          Backend.profilesForFloat st floatId = [] ∧
          Backend.trajectoryForFloat st floatId = []) ∧
    (∀ (st : Backend.ServerState) (profileId : String),
        (∀ g ∈ st.MEASUREMENTS_DATA, ∀ p ∈ g.2, p.profile_id ≠ profileId) →
          Backend.measurementsForProfile st profileId = []) := by
  constructor
  · intro st floatId h
    have hl : Backend.lookupAssoc st.MEASUREMENTS_DATA floatId = none := by
      unfold Backend.lookupAssoc
      have : st.MEASUREMENTS_DATA.find? (fun g => g.1 == floatId) = none := by
        rw [List.find?_eq_none]
        intro g hg
        simp [h g hg]
      rw [this]
      rfl
    constructor
    · simp [Backend.profilesForFloat, hl]
    · simp [Backend.trajectoryForFloat, hl]
  · intro st profileId h
    unfold Backend.measurementsForProfile
    have : st.MEASUREMENTS_DATA.findSome?
        (fun g => g.2.find? (fun p => p.profile_id == profileId)) = none := by
      rw [List.findSome?_eq_none_iff]
      intro g hg
      rw [List.find?_eq_none]
      intro p hp
      simp [h g hg p hp]
    rw [this]

/-- C8 witness: after ingesting one file, querying the unknown float id and
profile id "nope" returns empty sequences. -/
theorem C8_witness :
    (∀ g ∈ (Backend.loadCSVData [fileD1]).MEASUREMENTS_DATA, g.1 ≠ "nope") ∧
    Backend.profilesForFloat (Backend.loadCSVData [fileD1]) "nope" = [] ∧
    Backend.trajectoryForFloat (Backend.loadCSVData [fileD1]) "nope" = [] ∧
    Backend.measurementsForProfile (Backend.loadCSVData [fileD1]) "nope" = [] :=
  ⟨by decide,
   (C8_theorem.1 (Backend.loadCSVData [fileD1]) "nope" (by decide)).1,
   (C8_theorem.1 (Backend.loadCSVData [fileD1]) "nope" (by decide)).2,
   C8_theorem.2 (Backend.loadCSVData [fileD1]) "nope" (by decide)⟩

/-- C9: every MeasurementRecord built by either variant has its depth equal
to its pressure times 1.019716 exactly. -/
theorem C9_theorem :
    (∀ (rows : List Row) (m : Backend.Measurement), m ∈ Backend.buildMeasurements rows →
        m.depth = m.pressure * (1019716 / 1000000 : ℚ)) ∧
    (∀ (rows : List Row) (m : Proc.Meas), m ∈ Proc.insertMeasurements rows →
        m.depth = m.pressure * (1019716 / 1000000 : ℚ)) := by
  have hc : (mkRat 1019716 1000000 : ℚ) = 1019716 / 1000000 := by
    rw [Rat.mkRat_eq_div]
    norm_num
  constructor
  · intro rows m hm
    simp only [Backend.buildMeasurements, List.mem_map] at hm
    obtain ⟨row, hrow, rfl⟩ := hm
    simp only [qmul_eq, hc]
  · intro rows m hm
    simp only [Proc.insertMeasurements, List.mem_map] at hm
    obtain ⟨row, hrow, rfl⟩ := hm
    simp only [Proc.pressureToDepth, qmul_eq, hc]

/-- C9 witness: the measurement built from a row with pressure 10 and
temperature 20 is produced by both variants and satisfies the depth law. -/
theorem C9_witness :
    measOk ∈ Backend.buildMeasurements [rowOk] ∧
    measOk.depth = measOk.pressure * (1019716 / 1000000 : ℚ) ∧
    measOkProc ∈ Proc.insertMeasurements [rowOk] ∧
    measOkProc.depth = measOkProc.pressure * (1019716 / 1000000 : ℚ) :=
  ⟨by decide, C9_theorem.1 [rowOk] measOk (by decide),
   by decide, C9_theorem.2 [rowOk] measOkProc (by decide)⟩

/-- C10: in the database-ingestion variant a coordinate that is exactly 0 is
falsy, so the `||` chains read it as absent: a profile row on the equator
(or prime meridian) either produces no entities at all, or its stored
coordinate is taken from the float's last recorded metadata position — which
is itself nonzero — so the true 0-degree coordinate is never stored; and the
metadata pass records nothing from such a row. -/
theorem C10_theorem :
    (∀ (pid : String) (sample : Row) (rest : List Row)
        (md : List (String × Proc.FloatMeta)) (res : Proc.ProcResult),
        sample.LATITUDE = .num 0 → sample.latitude = .undefined →
        Proc.processProfileData pid (sample :: rest) md = some res →
          ∃ meta lp,
            Proc.lookupMeta md (jsKeyString (jsOr sample.PLATFORM_NUMBER
                (jsOr sample.platform_number (jsOr sample.FLOAT_ID
                  (jsOr sample.float_id (.str pid)))))) = some meta ∧
            meta.positions.getLast? = some lp ∧ res.lat = lp.latitude ∧ lp.latitude ≠ 0) ∧
    (∀ (pid : String) (sample : Row) (rest : List Row)
        (md : List (String × Proc.FloatMeta)) (res : Proc.ProcResult),
        sample.LONGITUDE = .num 0 → sample.longitude = .undefined →
        Proc.processProfileData pid (sample :: rest) md = some res →
          ∃ meta lp,
            Proc.lookupMeta md (jsKeyString (jsOr sample.PLATFORM_NUMBER
                (jsOr sample.platform_number (jsOr sample.FLOAT_ID
                  (jsOr sample.float_id (.str pid)))))) = some meta ∧
            meta.positions.getLast? = some lp ∧ res.lon = lp.longitude ∧ lp.longitude ≠ 0) ∧
    (∀ (date : Option ℚ) (fd : List (String × Proc.FloatMeta)) (key : String)
        (sample : Row) (rest : List Row),
        sample.LATITUDE = .num 0 → sample.latitude = .undefined →
        Proc.metaProfileStep date fd (key, sample :: rest) = fd) ∧
    (∀ (date : Option ℚ) (fd : List (String × Proc.FloatMeta)) (key : String)
        (sample : Row) (rest : List Row),
        sample.LONGITUDE = .num 0 → sample.longitude = .undefined →
        Proc.metaProfileStep date fd (key, sample :: rest) = fd) := by
  refine ⟨?_, ?_, ?_, ?_⟩
  · intro pid sample rest md res h1 h2 hres
    simp only [Proc.processProfileData, h1, h2] at hres
    simp only [jsOr_num_zero, jsOr_undefined, jsOr_null, JSVal.truthy, Bool.not_false,
      Bool.true_or, if_true] at hres
    cases hmeta : Proc.lookupMeta md (jsKeyString (jsOr sample.PLATFORM_NUMBER
        (jsOr sample.platform_number (jsOr sample.FLOAT_ID
          (jsOr sample.float_id (JSVal.str pid)))))) with
    | none =>
      rw [hmeta] at hres
      simp at hres
    | some meta =>
      rw [hmeta] at hres
      dsimp only at hres
      cases hlast : meta.positions.getLast? with
      | none =>
        rw [hlast] at hres
        simp at hres
      | some lp =>
        rw [hlast] at hres
        dsimp only at hres
        split at hres
        · exact absurd hres (by simp)
        · next h =>
          injection hres with h3
          subst h3
          refine ⟨meta, lp, rfl, hlast, rfl, ?_⟩
          intro h0
          apply h
          simp [h0, JSVal.truthy]
  · intro pid sample rest md res h1 h2 hres
    simp only [Proc.processProfileData, h1, h2] at hres
    simp only [jsOr_num_zero, jsOr_undefined, jsOr_null, JSVal.truthy, Bool.not_false,
      Bool.true_or, Bool.or_true, if_true] at hres
    cases hmeta : Proc.lookupMeta md (jsKeyString (jsOr sample.PLATFORM_NUMBER
        (jsOr sample.platform_number (jsOr sample.FLOAT_ID
          (jsOr sample.float_id (JSVal.str pid)))))) with
    | none =>
      rw [hmeta] at hres
      simp at hres
    | some meta =>
      rw [hmeta] at hres
      dsimp only at hres
      cases hlast : meta.positions.getLast? with
      | none =>
        rw [hlast] at hres
        simp at hres
      | some lp =>
        rw [hlast] at hres
        dsimp only at hres
        split at hres
        · exact absurd hres (by simp)
        · next h =>
          injection hres with h3
          subst h3
          refine ⟨meta, lp, rfl, hlast, rfl, ?_⟩
          intro h0
          apply h
          simp [h0, JSVal.truthy]
  · intro date fd key sample rest h1 h2
    simp [Proc.metaProfileStep, h1, h2, jsOr_num_zero, JSVal.truthy]
  · intro date fd key sample rest h1 h2
    simp [Proc.metaProfileStep, h1, h2, jsOr_num_zero, JSVal.truthy]

/-- C10 witness: the equator row (latitude exactly 0, longitude 70) for float
2901001, with one prior metadata position (5, 60), produces a profile whose
stored latitude is the prior 5 — not 0. -/
theorem C10_witness :
    rowEq.LATITUDE = .num 0 ∧ rowEq.latitude = .undefined ∧
    Proc.processProfileData "0" [rowEq] mdA = some resEq ∧
    (∃ meta lp,
        Proc.lookupMeta mdA (jsKeyString (jsOr rowEq.PLATFORM_NUMBER
            (jsOr rowEq.platform_number (jsOr rowEq.FLOAT_ID
              (jsOr rowEq.float_id (.str "0")))))) = some meta ∧
        meta.positions.getLast? = some lp ∧ resEq.lat = lp.latitude ∧ lp.latitude ≠ 0) :=
  ⟨rfl, rfl, by decide, C10_theorem.1 "0" rowEq [] mdA resEq rfl rfl (by decide)⟩
